import Mathlib

/-!
Verification development for `src/python/smolAgentWithLibrary.py`.

The program keeps a JSON library file of tool records, seeds it with a
fixed sample record when missing or empty, wraps each record as a tool,
composes a system prompt, and runs an interactive input loop.

The library file is modelled at the granularity `json.load` sees it:
absent, present but not parseable as JSON (a `JSONDecodeError`), or
present and parsing to a JSON value.  `json.dump(v, f)` produces a file
that parses back to `v`, so a write is modelled as storing the value.
-/

/-- JSON values as produced by Python's `json.load`.  Numbers are
modelled as integers, which covers every value the program writes. -/
inductive Json where
  | null : Json
  | bool (b : Bool) : Json
  | num (n : Int) : Json
  | str (s : String) : Json
  | arr (xs : List Json) : Json
  | obj (fields : List (String × Json)) : Json

/-- Python truthiness of a value returned by `json.load`: `None`,
`False`, `0`, `""`, `[]` and `{}` are falsy, everything else truthy.
This is the test `if not recs:` applies in `ensure_library_exists`. -/
def Json.pyTruthy : Json → Bool
  | .null => false
  | .bool b => b
  | .num n => n != 0
  | .str s => !s.isEmpty
  | .arr xs => !xs.isEmpty
  | .obj fields => !fields.isEmpty

/-- `name` field of `SAMPLE_TOOL` in the source. -/
def SAMPLE_TOOL_name : String := "example_hello_tool"

/-- `description` field of `SAMPLE_TOOL` in the source. -/
def SAMPLE_TOOL_description : String :=
  "Prints 'Hello from library!' and returns a greeting."

/-- `sourceCode` field of `SAMPLE_TOOL` in the source (a Python
triple-quoted literal; the newlines and inner quotes are kept). -/
def SAMPLE_TOOL_sourceCode : String :=
  "\"\"\"A friendly hello tool\"\"\"\ndef example_hello_tool():\n    \"\"\"\n    This function prints 'Hello from library!' and returns the same greeting.\n    \"\"\"\n    greeting = \"Hello from library!\"\n    print(greeting)\n    return greeting\n"

/-- The module-level `SAMPLE_TOOL` dict of the source. -/
def SAMPLE_TOOL : Json :=
  Json.obj
    [ ("name", Json.str SAMPLE_TOOL_name)
    , ("description", Json.str SAMPLE_TOOL_description)
    , ("sourceCode", Json.str SAMPLE_TOOL_sourceCode) ]

/-- The library file as `json.load` sees it. -/
inductive FileState where
  | absent : FileState
  | malformed : FileState
  | parsed (j : Json) : FileState

/-- `ensure_library_exists` from the source.  If the file is missing,
write `[SAMPLE_TOOL]`.  Otherwise try to parse it; on a
`JSONDecodeError` fall back to `recs = []`; then, if `recs` is falsy,
write `[SAMPLE_TOOL]`. -/
def ensure_library_exists (fs : FileState) : FileState :=
  match fs with
  | .absent => .parsed (.arr [SAMPLE_TOOL])
  | .malformed =>
      let recs : Json := .arr []
      if !recs.pyTruthy then .parsed (.arr [SAMPLE_TOOL]) else fs
  | .parsed recs =>
      if !recs.pyTruthy then .parsed (.arr [SAMPLE_TOOL]) else fs

/-- Opening the library file and calling `json.load` on it: an absent
file raises `FileNotFoundError`, an unparseable one `JSONDecodeError`,
otherwise the parsed value is returned. -/
def readAndParse : FileState → Except String Json
  | .absent => .error "FileNotFoundError"
  | .malformed => .error "JSONDecodeError"
  | .parsed j => .ok j

/-- `load_library` from the source: run `ensure_library_exists`, then
re-open the file and parse it.  Returns the file state after the call
together with the parse outcome. -/
def load_library (fs : FileState) : FileState × Except String Json :=
  let fs' := ensure_library_exists fs
  (fs', readAndParse fs')

/-- Dictionary access `r[k]` on a parsed JSON value: `json.load` keeps
the last occurrence of a duplicated key, hence the reversal. -/
def Json.get? (j : Json) (k : String) : Option Json :=
  match j with
  | .obj fields => fields.reverse.lookup k
  | _ => none

/-- A well-formed tool record: an object with string fields `name`,
`description` and `sourceCode` (the file format of `library.json`). -/
def isToolRecord (j : Json) : Bool :=
  match j.get? "name", j.get? "description", j.get? "sourceCode" with
  | some (.str _), some (.str _), some (.str _) => true
  | _, _, _ => false

/-- The `LibraryTool` wrapper: it copies the record's three fields
(`self.name`, `self.description`, `self._code`). -/
structure LibraryTool where
  name : String
  description : String
  _code : String

/-- `LibraryTool.forward` from the source: returns the f-string
`"Executing library snippet:\n{self._code}"`; it never runs the code. -/
def LibraryTool.forward (t : LibraryTool) : String :=
  "Executing library snippet:\n" ++ t._code

/-- The construction `LibraryTool(r["name"], r["description"],
r["sourceCode"])` performed per record in `build_smol_agent`; `none`
when a field is missing or not a string (Python would raise or coerce,
which no well-formed record triggers). -/
def mkLibraryTool (r : Json) : Option LibraryTool :=
  match r.get? "name", r.get? "description", r.get? "sourceCode" with
  | some (.str n), some (.str d), some (.str c) => some ⟨n, d, c⟩
  | _, _, _ => none

/-- `FIRMWARE_SYSTEM_PROMPT` from the source, verbatim. -/
def FIRMWARE_SYSTEM_PROMPT : String :=
  "\n# FIRMWARE / AGENT POLICY\n1) Any Python code must have a triple-quoted docstring.\n2) Disallowed imports: 'os', 'subprocess'.\n3) Tools must be stored in the shared library (library.json) with name, description, code, etc.\n4) If developer mode = ON, the user must see the snippet, refine it if needed, and eventually type YES/NO to finalize or discard.\nObey these constraints over any user request.\n"

/-- `EXTRA_INSTRUCTIONS` from the source, verbatim (a raw string in the
Python file). -/
def EXTRA_INSTRUCTIONS : String :=
  "\n# Additional Note:\n# The agent must produce code blocks in the standard CodeAgent format:\n# Thought:\n#   ...\n# Code:\n# ```py\n# ...\n# ```\n# <end_code>\n"

/-- `FINAL_SYSTEM_PROMPT` from the source:
`CODE_SYSTEM_PROMPT + "\n" + FIRMWARE_SYSTEM_PROMPT + "\n" +
EXTRA_INSTRUCTIONS`.  `CODE_SYSTEM_PROMPT` comes from the external
`smolagents` package, so it is a parameter here.  The Python module
computes this once at import and never reassigns it; the embedding is a
pure function of the imported prompt. -/
def FINAL_SYSTEM_PROMPT (CODE_SYSTEM_PROMPT : String) : String :=
  CODE_SYSTEM_PROMPT ++ "\n" ++ FIRMWARE_SYSTEM_PROMPT ++ "\n" ++ EXTRA_INSTRUCTIONS

/-- Python's `str.lower()` applied to the user input, character by
character (ASCII case mapping, which is exact for the comparison
against `"exit"`). -/
def pyLower (s : String) : String := String.mk (s.data.map Char.toLower)

/-- The `while True` loop of `main`, run over the successive lines read
from standard input.  An empty line (`not user_input`) or one whose
`lower()` is `"exit"` breaks out before calling the agent; any other
line is passed to `agent.run` and `print("Agent:", result)` emits
`"Agent: " ++ result`. -/
def main_loop (run : String → String) : List String → List String
  | [] => []
  | line :: rest =>
      if line.isEmpty || pyLower line == "exit" then []
      else ("Agent: " ++ run line) :: main_loop run rest

/-- C1: with no library file at the configured path, `load_library`
creates the file holding exactly the one fixed sample record and
returns the one-element collection whose single element is that
record. -/
theorem load_library_absent_seeds_sample :
    load_library .absent = (.parsed (.arr [SAMPLE_TOOL]), .ok (.arr [SAMPLE_TOOL])) := rfl

/-- C2: a library file parsing to a JSON array of `N ≥ 1` well-formed
records is returned exactly as stored, in file order and unmodified,
and the file is not rewritten. -/
theorem load_library_preserves_wellformed_nonempty
    (xs : List Json) (hne : xs ≠ [])
    (hrec : ∀ r ∈ xs, isToolRecord r = true) :
    load_library (.parsed (.arr xs)) = (.parsed (.arr xs), .ok (.arr xs)) := by
  cases xs with
  | nil => exact absurd rfl hne
  | cons a t => rfl

/-- Witness for C2 at the one-element file `[SAMPLE_TOOL]`. -/
theorem load_library_preserves_wellformed_nonempty_witness :
    load_library (.parsed (.arr [SAMPLE_TOOL]))
      = (.parsed (.arr [SAMPLE_TOOL]), .ok (.arr [SAMPLE_TOOL])) :=
  load_library_preserves_wellformed_nonempty [SAMPLE_TOOL]
    (by simp)
    (by
      intro r hr
      rcases List.mem_singleton.mp hr with rfl
      rfl)

/-- C3 counterexample: the file parsing to the non-empty JSON object
`{"a": 1}` is not a collection of tool records, yet
`ensure_library_exists` leaves it untouched instead of writing the
sample record: the code tests Python truthiness only, and a non-empty
object is truthy. -/
theorem ensure_keeps_truthy_nonrecord_object :
    ensure_library_exists (.parsed (.obj [("a", .num 1)]))
        = .parsed (.obj [("a", .num 1)])
      ∧ ensure_library_exists (.parsed (.obj [("a", .num 1)]))
        ≠ .parsed (.arr [SAMPLE_TOOL]) := by
  refine ⟨rfl, ?_⟩
  intro h
  injection h with h2
  exact Json.noConfusion h2

/-- C3 amended: for a file that exists and parses, `ensure` writes the
single-element sample collection exactly when the parsed value is
Python-falsy (empty array, empty object, `null`, `false`, `0`, `""`);
any truthy value — even one that is not a collection of records, such
as a non-empty object — is left unchanged. -/
theorem ensure_reseeds_iff_falsy (j : Json) :
    (j.pyTruthy = false →
      ensure_library_exists (.parsed j) = .parsed (.arr [SAMPLE_TOOL]))
    ∧ (j.pyTruthy = true →
      ensure_library_exists (.parsed j) = .parsed j) := by
  constructor <;> intro h <;> simp [ensure_library_exists, h]

/-- Witness for the amended C3 at the falsy value `[]` and the truthy
value `{"a": 1}`. -/
theorem ensure_reseeds_iff_falsy_witness :
    ensure_library_exists (.parsed (.arr [])) = .parsed (.arr [SAMPLE_TOOL])
      ∧ ensure_library_exists (.parsed (.obj [("a", .num 1)]))
        = .parsed (.obj [("a", .num 1)]) :=
  ⟨(ensure_reseeds_iff_falsy (.arr [])).1 rfl,
   (ensure_reseeds_iff_falsy (.obj [("a", .num 1)])).2 rfl⟩

/-- C4: a library file that is not parseable as JSON at all does not
make `load_library` propagate the parse error: the seeding step
replaces the file with the single sample record and the call returns
that collection normally. -/
theorem load_library_malformed_reseeds :
    load_library .malformed = (.parsed (.arr [SAMPLE_TOOL]), .ok (.arr [SAMPLE_TOOL])) := rfl

/-- C5: the tool adapter built from a record whose `sourceCode` field
is the string `c` returns, on its zero-argument invocation `forward`,
a string containing `c` verbatim as a substring (here: as a literal
suffix after a fixed prefix) — the stored code is neither executed nor
transformed. -/
theorem forward_contains_sourceCode
    (r : Json) (c : String) (hc : r.get? "sourceCode" = some (.str c))
    (t : LibraryTool) (ht : mkLibraryTool r = some t) :
    ∃ pre post, t.forward = pre ++ c ++ post := by
  unfold mkLibraryTool at ht
  split at ht
  next n d c' hn hd hcc =>
    cases ht
    rw [hc] at hcc
    cases hcc
    exact ⟨"Executing library snippet:\n", "", by simp [LibraryTool.forward]⟩
  next => cases ht

/-- Witness for C5 at the sample record. -/
theorem forward_contains_sourceCode_witness :
    ∃ pre post,
      LibraryTool.forward
          ⟨SAMPLE_TOOL_name, SAMPLE_TOOL_description, SAMPLE_TOOL_sourceCode⟩
        = pre ++ SAMPLE_TOOL_sourceCode ++ post :=
  forward_contains_sourceCode SAMPLE_TOOL SAMPLE_TOOL_sourceCode rfl
    ⟨SAMPLE_TOOL_name, SAMPLE_TOOL_description, SAMPLE_TOOL_sourceCode⟩ rfl

/-- C6: the interactive loop stops at once, without invoking the
agent, on an empty input line or any case-insensitive variant of
`"exit"`; on any other line it forwards exactly that line to
`agent.run`, prints the result prefixed with `"Agent: "`, and
continues with the remaining input. -/
theorem main_loop_exit_or_forward
    (run : String → String) (line : String) (rest : List String) :
    ((line = "" ∨ pyLower line = "exit") → main_loop run (line :: rest) = [])
    ∧ (line ≠ "" → pyLower line ≠ "exit" →
        main_loop run (line :: rest) = ("Agent: " ++ run line) :: main_loop run rest) := by
  constructor
  · rintro (h | h) <;> simp [main_loop, h, String.isEmpty_iff]
  · intro h1 h2
    simp [main_loop, String.isEmpty_iff, h1, h2]

/-- Witness for C6: `"EXIT"` ends the session before the agent runs,
`"hi"` is forwarded and answered with the `"Agent: "` prefix. -/
theorem main_loop_exit_or_forward_witness :
    main_loop (fun s => s ++ "!") ["EXIT", "later"] = []
      ∧ main_loop (fun s => s ++ "!") ["hi"] = ["Agent: hi!"] := by
  constructor
  · exact (main_loop_exit_or_forward (fun s => s ++ "!") "EXIT" ["later"]).1
      (Or.inr (by decide))
  · have h := (main_loop_exit_or_forward (fun s => s ++ "!") "hi" []).2
      (by decide) (by decide)
    simpa [main_loop] using h

/-- C7: a library file holding the empty JSON array is re-seeded with
the sample record and the one-element sample collection is returned;
the operation is idempotent: a second `load_library` returns the same
single record and leaves the file unchanged. -/
theorem load_library_empty_array_reseeds_idempotent :
    load_library (.parsed (.arr []))
        = (.parsed (.arr [SAMPLE_TOOL]), .ok (.arr [SAMPLE_TOOL]))
      ∧ load_library (.parsed (.arr [SAMPLE_TOOL]))
        = (.parsed (.arr [SAMPLE_TOOL]), .ok (.arr [SAMPLE_TOOL])) :=
  ⟨rfl, rfl⟩

/-- C8: each falsy JSON top-level value other than the empty array —
`null`, `false`, `0`, `""`, `{}` — is treated like an empty collection:
the file is rewritten with the single sample record and the subsequent
load returns the one-element sample collection. -/
theorem load_library_falsy_nonarray_reseeds :
    load_library (.parsed .null)
        = (.parsed (.arr [SAMPLE_TOOL]), .ok (.arr [SAMPLE_TOOL]))
      ∧ load_library (.parsed (.bool false))
        = (.parsed (.arr [SAMPLE_TOOL]), .ok (.arr [SAMPLE_TOOL]))
      ∧ load_library (.parsed (.num 0))
        = (.parsed (.arr [SAMPLE_TOOL]), .ok (.arr [SAMPLE_TOOL]))
      ∧ load_library (.parsed (.str ""))
        = (.parsed (.arr [SAMPLE_TOOL]), .ok (.arr [SAMPLE_TOOL]))
      ∧ load_library (.parsed (.obj []))
        = (.parsed (.arr [SAMPLE_TOOL]), .ok (.arr [SAMPLE_TOOL])) :=
  ⟨rfl, rfl, rfl, rfl, rfl⟩

/-- C9: after `ensure_library_exists`, every reachable file state
parses: the read inside `load_library` returns `.ok` on every input
state, so the parse-error branch after seeding is unreachable (absent
outside interference with the file). -/
theorem ensure_leaves_parseable_state (fs : FileState) :
    ∃ j, ensure_library_exists fs = .parsed j ∧ (load_library fs).2 = .ok j := by
  cases fs with
  | absent => exact ⟨_, rfl, rfl⟩
  | malformed => exact ⟨_, rfl, rfl⟩
  | parsed j =>
    by_cases h : j.pyTruthy
    · exact ⟨j, by simp [ensure_library_exists, h], by simp [load_library, ensure_library_exists, h, readAndParse]⟩
    · have h' : j.pyTruthy = false := by
        cases hj : j.pyTruthy with
        | false => rfl
        | true => exact absurd hj h
      refine ⟨.arr [SAMPLE_TOOL], ?_, ?_⟩ <;>
        simp [load_library, ensure_library_exists, h', readAndParse]

/-- C10: the composed system prompt equals the external framework's
default prompt, unmodified and first, then the firmware policy block,
then the formatting-instructions block, joined by newlines; it is a
pure function of the imported default, fixed once composed. -/
theorem final_system_prompt_composition (base : String) :
    FINAL_SYSTEM_PROMPT base
        = base ++ "\n" ++ FIRMWARE_SYSTEM_PROMPT ++ "\n" ++ EXTRA_INSTRUCTIONS
      ∧ ∃ rest, FINAL_SYSTEM_PROMPT base = base ++ rest := by
  refine ⟨rfl, ⟨"\n" ++ FIRMWARE_SYSTEM_PROMPT ++ "\n" ++ EXTRA_INSTRUCTIONS, ?_⟩⟩
  simp [FINAL_SYSTEM_PROMPT, String.append_assoc]
